import Mathlib

/-!
Shallow embedding of the core of the UI-agnostic code-generation toolkit
(provider locator, provider implementations, feature registry, AI-integration
facade, bulk project generator, file manager), translated from the Python
sources under `src/aics/`, together with theorems settling the spec claims.

Modelling conventions:
* `os.environ` is modelled as `Env := String → Option String`.
* Python exceptions are modelled with `Except String α`; the carried string is
  the exception message (or the exception class name where only the class
  matters to the claims).
* Python `dict` values are association lists (`List (String × _)`); insertion
  order is preserved, as in CPython.
* Floating-point temperatures from the static model catalogs are stored scaled
  by ten (`temperature_tenths`), since the sources only ever use one-decimal
  literals and no arithmetic is performed on them.
* Functions that perform network or provider calls take the call's outcome as
  an explicit functional argument, and operations whose call trace matters
  return an explicit log of the calls they issued.
-/

namespace AICS

/-- Execution environment (`os.getenv`): maps a variable name to its value. -/
abbrev Env := String → Option String

/-- Per-model configuration record from a provider's static catalog
(`{"max_tokens": ..., "temperature": ...}`); the temperature is stored
scaled by ten. -/
structure ModelConfig where
  max_tokens : Nat
  temperature_tenths : Nat
  deriving DecidableEq, Repr

/-! ### Provider implementations (`src/aics/providers/groq.py`,
`ollama.py`, `openrouter.py`) -/

/-- State of `GroqProvider` after a successful `__init__`. -/
structure GroqProvider where
  api_key : String
  base_url : String
  deriving DecidableEq, Repr

/-- Constructor `GroqProvider.__init__`: reads `GROQ_API_KEY` from the environment and
raises `ValueError` when it is unset or falsy (the empty string). -/
def GroqProvider.init (env : Env) : Except String GroqProvider :=
  match env "GROQ_API_KEY" with
  | none => .error "GROQ_API_KEY environment variable is not set"
  | some k =>
    if k = "" then .error "GROQ_API_KEY environment variable is not set"
    else .ok { api_key := k, base_url := "https://api.groq.com/openai/v1" }

/-- Property `GroqProvider.available_models`. -/
def GroqProvider.available_models : List String :=
  ["llama-3.1-70b-versatile", "llama-3.1-8b-instant", "mixtral-8x7b-32768", "gemma-7b-it"]

/-- Property `GroqProvider.default_model`. -/
def GroqProvider.default_model : String := "llama-3.1-8b-instant"

/-- The static `configs` dict literal of `GroqProvider.get_model_config`. -/
def GroqProvider.configs : List (String × ModelConfig) :=
  [("llama-3.1-70b-versatile", ⟨4096, 2⟩),
   ("llama-3.1-8b-instant", ⟨4096, 7⟩),
   ("mixtral-8x7b-32768", ⟨32768, 8⟩),
   ("gemma-7b-it", ⟨8192, 7⟩)]

/-- State of `OllamaProvider` after `__init__` (no credential). -/
structure OllamaProvider where
  base_url : String
  deriving DecidableEq, Repr

/-- Constructor `OllamaProvider.__init__`: stores the fixed loopback base URL and
cannot fail. -/
def OllamaProvider.init : OllamaProvider :=
  { base_url := "http://localhost:11434" }

/-- Property `OllamaProvider.available_models`. -/
def OllamaProvider.available_models : List String :=
  ["Replete-Coder-Qwen-1.5b-Q6_K:latest", "qwen2-1_5b-instruct-q8_0:latest"]

/-- Property `OllamaProvider.default_model`. -/
def OllamaProvider.default_model : String := "Replete-Coder-Qwen-1.5b-Q6_K:latest"

/-- The static `configs` dict literal of `OllamaProvider.get_model_config`. -/
def OllamaProvider.configs : List (String × ModelConfig) :=
  [("Replete-Coder-Qwen-1.5b-Q6_K:latest", ⟨2048, 3⟩),
   ("qwen2-1_5b-instruct-q8_0:latest", ⟨2048, 3⟩)]

/-- State of `OpenRouterProvider` after `__init__`: the API key is stored exactly
as `os.getenv` returned it, with no presence check. -/
structure OpenRouterProvider where
  api_key : Option String
  base_url : String
  deriving DecidableEq, Repr

/-- Constructor `OpenRouterProvider.__init__`: stores `os.getenv("OPENROUTER_API_KEY")`
verbatim (possibly `None`) and never fails. -/
def OpenRouterProvider.init (env : Env) : OpenRouterProvider :=
  { api_key := env "OPENROUTER_API_KEY", base_url := "https://openrouter.ai/api/v1" }

/-- Property `OpenRouterProvider.available_models`. -/
def OpenRouterProvider.available_models : List String :=
  ["nousresearch/hermes-3-llama-3.1-405b:free", "mistralai/mistral-7b-instruct:free",
   "meta-llama/llama-3.1-8b-instruct:free", "microsoft/phi-3-mini-128k-instruct:free",
   "qwen/qwen2-7b-instruct:free"]

/-- Property `OpenRouterProvider.default_model`. -/
def OpenRouterProvider.default_model : String := "qwen/qwen2-7b-instruct:free"

/-- The static `configs` dict literal of `OpenRouterProvider.get_model_config`. -/
def OpenRouterProvider.configs : List (String × ModelConfig) :=
  [("nousresearch/hermes-3-llama-3.1-405b:free", ⟨4096, 0⟩),
   ("meta-llama/llama-3.1-8b-instruct:free", ⟨4096, 3⟩),
   ("mistralai/mistral-7b-instruct:free", ⟨4096, 3⟩),
   ("microsoft/phi-3-mini-128k-instruct:free", ⟨4096, 3⟩),
   ("qwen/qwen2-7b-instruct:free", ⟨4096, 3⟩)]

/-- A constructed provider instance, one variant per implementation class. -/
inductive Provider where
  | groq (p : GroqProvider)
  | ollama (p : OllamaProvider)
  | openrouter (p : OpenRouterProvider)
  deriving DecidableEq, Repr

/-- Dynamic dispatch of the `available_models` property. -/
def Provider.available_models : Provider → List String
  | .groq _ => GroqProvider.available_models
  | .ollama _ => OllamaProvider.available_models
  | .openrouter _ => OpenRouterProvider.available_models

/-- Dynamic dispatch of the `default_model` property. -/
def Provider.default_model : Provider → String
  | .groq _ => GroqProvider.default_model
  | .ollama _ => OllamaProvider.default_model
  | .openrouter _ => OpenRouterProvider.default_model

/-- The static configuration dict of the provider's class. -/
def Provider.configs : Provider → List (String × ModelConfig)
  | .groq _ => GroqProvider.configs
  | .ollama _ => OllamaProvider.configs
  | .openrouter _ => OpenRouterProvider.configs

/-- Method `get_model_config(model_name)`: `configs.get(model_name, {})`; `none`
models the empty dict returned for a model outside the catalog. -/
def Provider.get_model_config (p : Provider) (model_name : String) : Option ModelConfig :=
  p.configs.lookup model_name

/-- The model names a provider's static configuration catalog covers. -/
def Provider.catalog (p : Provider) : List String :=
  p.configs.map Prod.fst

/-! ### Provider locator (`src/aics/providers/__init__.py`) -/

/-- The keys of the fixed `PROVIDERS` registration table. -/
def providerNames : List String := ["groq", "ollama", "openrouter"]

/-- Locator `get_provider(name)`: looks `name` up in `PROVIDERS` and constructs a fresh
instance of the matching class; raises `ValueError` for unknown names.
Construction itself may fail (groq with a missing key). -/
def get_provider (env : Env) (name : String) : Except String Provider :=
  if name = "groq" then (GroqProvider.init env).map Provider.groq
  else if name = "ollama" then .ok (Provider.ollama OllamaProvider.init)
  else if name = "openrouter" then .ok (Provider.openrouter (OpenRouterProvider.init env))
  else .error ("Unknown provider: " ++ name)

/-! ### Feature registry (`src/aics/core/feature_registry.py`) -/

/-- A registration entry: the implementing class (by name) and the declared
dependency list (`{'class': ..., 'dependencies': ...}`). -/
structure FeatureEntry where
  className : String
  dependencies : List String
  deriving DecidableEq, Repr

/-- Registry dict `FeatureRegistry._features`: feature name to entry, in
registration order. -/
abbrev Registry := List (String × FeatureEntry)

namespace Registry

/-- Method `FeatureRegistry.register(name, dependencies)` applied to a class: binds
`name` to the entry; re-registration overwrites in place (dict assignment). -/
def register (reg : Registry) (name : String) (e : FeatureEntry) : Registry :=
  if (reg.map Prod.fst).contains name then
    reg.map (fun p => if p.1 = name then (name, e) else p)
  else reg ++ [(name, e)]

/-- Method `FeatureRegistry.is_feature_enabled(name)`: `name in cls._features`. -/
def is_feature_enabled (reg : Registry) (name : String) : Bool :=
  (reg.map Prod.fst).contains name

/-- Method `FeatureRegistry.get_all_features()`: the keys, in registration order. -/
def get_all_features (reg : Registry) : List String :=
  reg.map Prod.fst

/-- Dict access `cls._features.get(name)`. -/
def find (reg : Registry) (name : String) : Option FeatureEntry :=
  reg.lookup name

/-- Method `FeatureRegistry.get_feature_dependencies(name)`: the dependency list,
empty when unregistered. -/
def get_feature_dependencies (reg : Registry) (name : String) : List String :=
  match reg.lookup name with
  | some e => e.dependencies
  | none => []

/-- Method `FeatureRegistry.get_dependent_features(name)`: every registered feature
whose dependency list contains `name`, by list comprehension over the dict. -/
def get_dependent_features (reg : Registry) (name : String) : List String :=
  (reg.filter (fun p => p.2.dependencies.contains name)).map Prod.fst

/-- Dict removal `cls._features.pop(name, None)`: removes the entry for `name`, no-op when
absent. -/
def pop (reg : Registry) (name : String) : Registry :=
  reg.filter (fun p => !(p.1 = name : Bool))

end Registry

/-! ### Feature manager CLI (`src/aics/feature_manager.py`) -/

/-- Command `remove_feature(feature_name)`: refuses when the feature is not enabled;
when dependents exist, proceeds only on operator confirmation; otherwise pops
the entry from the registry. Returns the resulting registry state. -/
def remove_feature (reg : Registry) (name : String) (confirm : Bool) : Registry :=
  if Registry.is_feature_enabled reg name then
    if Registry.get_dependent_features reg name ≠ [] ∧ confirm = false then reg
    else Registry.pop reg name
  else reg

/-- A Python exception as classified by the `except` clauses of
`add_feature`: an `ImportError` (caught) or anything else (uncaught). -/
inductive PyExc where
  | importError (msg : String)
  | otherError (msg : String)
  deriving DecidableEq, Repr

/-- A successfully imported feature module: whether it defines `setup`, and
what calling `setup()` does (`some e` = raises `e`). -/
structure FeatureModule where
  hasSetup : Bool
  setupExc : Option PyExc
  deriving DecidableEq, Repr

/-- The body of `add_feature`'s `try` block: import the module, call `setup()`
when present, echo the success message. -/
def add_feature_body (importModule : String → Except PyExc FeatureModule)
    (feature_name : String) : Except PyExc String :=
  match importModule ("features." ++ feature_name) with
  | .error e => .error e
  | .ok m =>
    if m.hasSetup then
      match m.setupExc with
      | some e => .error e
      | none => .ok ("Feature \x27" ++ feature_name ++ "\x27 added successfully.")
    else .ok ("Feature \x27" ++ feature_name ++ "\x27 added successfully.")

/-- Command `add_feature(feature_name)`: runs the body under `except ImportError`,
which degrades an import failure to the operator message; any other exception
escapes unhandled (`.error`). -/
def add_feature (importModule : String → Except PyExc FeatureModule)
    (feature_name : String) : Except String String :=
  match add_feature_body importModule feature_name with
  | .ok s => .ok s
  | .error (.importError _) => .ok ("Error: Feature \x27" ++ feature_name ++ "\x27 not found.")
  | .error (.otherError e) => .error e

/-! ### AI integration facade (`src/aics/features/ai_integration/__init__.py`) -/

/-- A parsed JSON value, as `httpx.Response.json()` would return it. -/
inductive Json where
  | null
  | bool (b : Bool)
  | num (n : Int)
  | str (s : String)
  | arr (elems : List Json)
  | obj (fields : List (String × Json))

/-- Python `repr`-style rendering of a JSON value, used when a non-string
value reaches an f-string. -/
def Json.render : Json → String
  | .null => "None"
  | .bool b => if b then "True" else "False"
  | .num n => toString n
  | .str s => "\x27" ++ s ++ "\x27"
  | .arr elems =>
    "[" ++ String.intercalate ", " (elems.attach.map (fun x => Json.render x.1)) ++ "]"
  | .obj fields =>
    "\x7b" ++ String.intercalate ", "
      (fields.attach.map
        (fun x => "\x27" ++ x.1.1 ++ "\x27: " ++ Json.render x.1.2)) ++ "\x7d"
decreasing_by
  · have h := List.sizeOf_lt_of_mem x.2
    simp_wf
    omega
  · have h := List.sizeOf_lt_of_mem x.2
    obtain ⟨⟨k, v⟩, hx⟩ := x
    simp_wf
    simp only [Prod.mk.sizeOf_spec] at h
    omega

/-- Python `str()` of a JSON value, as an f-string would format it: a string
is inserted verbatim, anything else via its `repr`. -/
def Json.pyStr : Json → String
  | .str s => s
  | j => Json.render j

/-- An upstream HTTP response as seen by the error path: status code, the
result of `response.json()` (`none` when parsing raises `ValueError`), and
`response.text`. -/
structure HttpResponse where
  status_code : Nat
  jsonBody : Option Json
  text : String

/-- Method `AIIntegration._parse_error_response(response)`: `response.json()`
failures are caught and mapped to `"HTTP {status}: {text}"`; a parsed body is
probed with `error_data.get("error", {}).get("message", "Unknown error
occurred")`, where `.get` on a non-dict raises `AttributeError` (uncaught,
modelled as `.error`). -/
def parse_error_response (r : HttpResponse) : Except String Json :=
  match r.jsonBody with
  | none => .ok (.str ("HTTP " ++ toString r.status_code ++ ": " ++ r.text))
  | some j =>
    match j with
    | .obj fields =>
      match (match fields.lookup "error" with | some v => v | none => .obj []) with
      | .obj efields =>
        .ok (match efields.lookup "message" with
             | some v => v
             | none => .str "Unknown error occurred")
      | _ => .error "AttributeError"
    | _ => .error "AttributeError"

/-- The `ValueError` message `AIIntegration.generate_code` raises when the
provider call fails with `httpx.HTTPStatusError` carrying response `r`
(`"API request failed: {error_detail}"`); when `_parse_error_response` itself
raises inside the handler, that exception escapes instead. -/
def generate_code_failure_message (r : HttpResponse) : Except String String :=
  match parse_error_response r with
  | .ok d => .ok ("API request failed: " ++ d.pyStr)
  | .error e => .error e

/-- A dataset row: field name to (string-rendered) value, as one element of
the loaded tabular dataset. -/
abbrev Row := List (String × String)

/-- Python `repr` of `row_data.to_dict()` for a row of string fields, as the
analysis f-string renders it. -/
def rowDictRepr (row : Row) : String :=
  "\x7b" ++ String.intercalate ", "
    (row.map (fun p => "\x27" ++ p.1 ++ "\x27: \x27" ++ p.2 ++ "\x27")) ++ "\x7d"

/-- The fixed analysis prompt template of `analyze_row`. -/
def analysisPrompt (row : Row) : String :=
  "Analyze the following data:\n\n" ++ rowDictRepr row ++
    "\n\nProvide insights and potential next steps."

/-- Method `AIIntegration.analyze_row(row, iterations)` for an integer `row` over a
loaded dataset. The provider is a call-indexed oracle `gen` (each iteration is
an independent call). Returns the log of prompts sent to the provider, paired
with the result: the out-of-bounds `ValueError`, or the generated analyses
joined by blank lines in call order. -/
def analyze_row (gen : Nat → String → String) (dataset : List Row)
    (row : Int) (iterations : Nat) : List String × Except String String :=
  if row < 0 ∨ row ≥ (dataset.length : Int) then
    ([], .error ("Row index " ++ toString row ++ " is out of bounds."))
  else
    let prompt := analysisPrompt (dataset.getD row.toNat [])
    ((List.range iterations).map (fun _ => prompt),
     .ok (String.intercalate "\n\n" ((List.range iterations).map (fun t => gen t prompt))))

/-! ### File manager (`src/aics/features/file_management/__init__.py`) -/

/-- Post-processing step of `os.path.dirname` for POSIX paths: everything up to the final separator,
with trailing separators stripped unless the head is all separators. -/
def dirnameAux (head : List Char) : String :=
  if head.isEmpty then ""
  else if head.all (fun c => c = Char.ofNat 47) then String.mk head
  else String.mk ((head.reverse.dropWhile (fun c => c = Char.ofNat 47)).reverse)

/-- Function `os.path.dirname` proper: `head` is everything up to and including the
final separator (`p[:p.rfind(sep) + 1]`), post-processed by `dirnameAux`. -/
def dirname (p : String) : String :=
  dirnameAux ((p.toList.reverse.dropWhile (fun c => c ≠ Char.ofNat 47)).reverse)

/-- The path separator (`"/"`, character code 47). -/
def sepChar : Char := Char.ofNat 47

/-- The directory chain `os.makedirs` creates for a target directory: the
directory and its ancestors, stopping at the root or an empty head. Fuel-based
recursion; callers pass a fuel at least the path length, which dominates the
chain depth. -/
def ancestorChain : Nat → String → List String
  | 0, _ => []
  | fuel + 1, d =>
    d :: (let parent := dirname d
          if parent = d ∨ parent = "" then [] else ancestorChain fuel parent)

/-- A flat model of the filesystem state touched by `write_file`: the set of
existing directories and the file contents. -/
structure FS where
  dirs : List String
  files : List (String × String)

/-- Method `FileManager.write_file(file_path, content)`: unconditionally calls
`os.makedirs(os.path.dirname(file_path), exist_ok=True)` and then writes the
content at `file_path`. `os.makedirs("")` raises `FileNotFoundError`, so a
bare filename fails before anything is written. -/
def write_file (file_path content : String) (fs : FS) : Except String FS :=
  let d := dirname file_path
  if d = "" then .error "FileNotFoundError"
  else .ok { dirs := fs.dirs ++ ancestorChain (file_path.length + 1) d,
             files := (file_path, content) :: fs.files }

/-! ### Bulk project generator (`src/aics/features/bulk_generation/__init__.py`) -/

/-- The prompt `BulkGenerator.generate_file_content` sends for one planned
file. -/
def filePrompt (file_path file_description : String) : String :=
  "Generate the content for the following file:\n\nFile: " ++ file_path ++
    "\nDescription: " ++ file_description ++
    "\n\nProvide only the file content in your response."

/-- Function `os.path.join(a, b)` for POSIX paths and two components: an absolute
second component replaces the first; otherwise a separator is inserted unless
the first component is empty or already ends with one. -/
def pathJoin (a b : String) : String :=
  if b.toList.head? = some sepChar then b
  else if a = "" ∨ a.toList.getLast? = some sepChar then a ++ b
  else a ++ "/" ++ b

/-- The payload of a successful provider call, used to state the results of a
run in which every call is known to succeed. -/
def okValue : Except String String → String
  | .ok c => c
  | .error _ => ""

/-- Method `BulkGenerator.create_project(project_plan, output_dir)`: one content
generation call and one `write_file` call per planned file, in plan order.
`gen` is the provider call (which may fail); the result is the log of
generation prompts issued, paired with either the uncaught failure or the
ordered list of `(full_path, content)` write calls made through the file
manager. -/
def create_project (gen : String → Except String String)
    (files : List (String × String)) (output_dir : String) :
    List String × Except String (List (String × String)) :=
  match files with
  | [] => ([], .ok [])
  | (fp, desc) :: rest =>
    let prompt := filePrompt fp desc
    match gen prompt with
    | .error e => ([prompt], .error e)
    | .ok content =>
      let (log, r) := create_project gen rest output_dir
      (prompt :: log, r.map (fun ws => (pathJoin output_dir fp, content) :: ws))

/-! ### General lemmas about association-list lookup and the registry -/

theorem lookup_eq_none_iff {β : Type} (l : List (String × β)) (a : String) :
    l.lookup a = none ↔ a ∉ l.map Prod.fst := by
  induction l with
  | nil => simp [List.lookup]
  | cons hd tl ih =>
    obtain ⟨k, v⟩ := hd
    by_cases hk : a = k
    · subst hk
      simp [List.lookup]
    · simp [List.lookup, beq_false_of_ne hk, hk, ih]

theorem mem_of_lookup_eq_some {β : Type} {l : List (String × β)} {a : String} {b : β}
    (h : l.lookup a = some b) : (a, b) ∈ l := by
  induction l with
  | nil => simp [List.lookup] at h
  | cons hd tl ih =>
    obtain ⟨k, v⟩ := hd
    by_cases hk : a = k
    · subst hk
      simp [List.lookup] at h
      simp [h]
    · simp [List.lookup, beq_false_of_ne hk] at h
      exact List.mem_cons_of_mem _ (ih h)

theorem lookup_pop_ne (reg : Registry) {a n : String} (h : a ≠ n) :
    (Registry.pop reg n).lookup a = reg.lookup a := by
  induction reg with
  | nil => rfl
  | cons hd tl ih =>
    obtain ⟨k, v⟩ := hd
    by_cases hkn : k = n
    · subst hkn
      have ha : (a == k) = false := beq_false_of_ne h
      simp [Registry.pop, List.filter, List.lookup, ha] at ih ⊢
      exact ih
    · by_cases hak : a = k
      · subst hak
        simp [Registry.pop, List.filter, hkn, List.lookup]
      · simp [Registry.pop, List.filter, hkn, List.lookup, beq_false_of_ne hak] at ih ⊢
        exact ih

theorem keys_pop (reg : Registry) (a n : String) :
    a ∈ (Registry.pop reg n).map Prod.fst ↔ a ∈ reg.map Prod.fst ∧ a ≠ n := by
  simp only [Registry.pop, List.mem_map, List.mem_filter]
  constructor
  · rintro ⟨p, ⟨hp, hf⟩, rfl⟩
    refine ⟨⟨p, hp, rfl⟩, ?_⟩
    intro hcontra
    simp [hcontra] at hf
  · rintro ⟨⟨p, hp, rfl⟩, hne⟩
    exact ⟨p, ⟨hp, by simp [hne]⟩, rfl⟩

theorem pop_of_not_enabled (reg : Registry) (n : String)
    (h : Registry.is_feature_enabled reg n = false) : Registry.pop reg n = reg := by
  have hn : n ∉ reg.map Prod.fst := by
    simpa [Registry.is_feature_enabled, List.elem_iff] using h
  rw [Registry.pop, List.filter_eq_self.mpr]
  intro p hp
  simp only [Bool.not_eq_true']
  refine decide_eq_false ?_
  intro hcontra
  have hmem : p.1 ∈ reg.map Prod.fst := List.mem_map.mpr ⟨p, hp, rfl⟩
  exact hn (hcontra ▸ hmem)

/-! ### Claim theorems -/

/-- C1: Provider Locator resolution. For any name outside the fixed
registration table of three provider names, `get_provider` fails with the
unknown-provider error; for each of the three registered names (given that the
groq credential is present in the environment, which its construction
requires), `get_provider` constructs and returns a fresh `Provider` whose
`default_model` is a member of its `available_models`. -/
theorem provider_locator_resolution (env : Env) (name : String)
    (hkey : ∃ k, env "GROQ_API_KEY" = some k ∧ k ≠ "") :
    (name ∉ providerNames → get_provider env name = .error ("Unknown provider: " ++ name)) ∧
    (name ∈ providerNames → ∃ p : Provider,
      get_provider env name = .ok p ∧ p.default_model ∈ p.available_models) := by
  obtain ⟨k, hk, hk0⟩ := hkey
  constructor
  · intro hn
    simp only [providerNames, List.mem_cons, List.not_mem_nil, or_false] at hn
    push_neg at hn
    obtain ⟨h1, h2, h3⟩ := hn
    simp [get_provider, h1, h2, h3]
  · intro hn
    simp only [providerNames, List.mem_cons, List.not_mem_nil, or_false] at hn
    rcases hn with h | h | h
    · subst h
      refine ⟨Provider.groq ⟨k, "https://api.groq.com/openai/v1"⟩, ?_, ?_⟩
      · simp [get_provider, GroqProvider.init, hk, hk0, Except.map]
      · simp [Provider.default_model, Provider.available_models,
          GroqProvider.default_model, GroqProvider.available_models]
    · subst h
      refine ⟨Provider.ollama OllamaProvider.init, rfl, ?_⟩
      simp [Provider.default_model, Provider.available_models,
        OllamaProvider.default_model, OllamaProvider.available_models]
    · subst h
      refine ⟨Provider.openrouter (OpenRouterProvider.init env), rfl, ?_⟩
      simp [Provider.default_model, Provider.available_models,
        OpenRouterProvider.default_model, OpenRouterProvider.available_models]

/-- Witness for C1 at a concrete environment: `"groq"` resolves to a provider
whose default model is available, and `"unknown-x"` fails with the
unknown-provider error. -/
theorem provider_locator_resolution_witness :
    (∃ p : Provider,
      get_provider (fun v => if v = "GROQ_API_KEY" then some "sk-demo" else none) "groq" = .ok p ∧
        p.default_model ∈ p.available_models) ∧
    get_provider (fun v => if v = "GROQ_API_KEY" then some "sk-demo" else none) "unknown-x" =
      .error ("Unknown provider: " ++ "unknown-x") :=
  ⟨(provider_locator_resolution _ "groq" ⟨"sk-demo", rfl, by decide⟩).2 (by decide),
   (provider_locator_resolution _ "unknown-x" ⟨"sk-demo", rfl, by decide⟩).1 (by decide)⟩

/-- C2 counterexample: with the credential entirely absent from the
environment, constructing the aggregation-gateway (openrouter) provider does
NOT fail; it returns an instance holding the missing (`none`) credential,
refuting the claim that every key-requiring provider fails construction. -/
theorem openrouter_missing_key_constructs :
    get_provider (fun _ => none) "openrouter" =
      .ok (Provider.openrouter { api_key := none, base_url := "https://openrouter.ai/api/v1" }) ∧
    (OpenRouterProvider.init (fun _ => none)).api_key = none :=
  ⟨rfl, rfl⟩

/-- C2 amended: the cloud-completions (groq) provider fails construction with
a configuration error when its API key is absent (or empty) in the execution
environment; the aggregation-gateway (openrouter) provider performs no check
and stores whatever the environment holds, missing credential included. -/
theorem api_key_construction_checks (env : Env) :
    ((env "GROQ_API_KEY" = none ∨ env "GROQ_API_KEY" = some "") →
      GroqProvider.init env = .error "GROQ_API_KEY environment variable is not set") ∧
    (OpenRouterProvider.init env).api_key = env "OPENROUTER_API_KEY" := by
  constructor
  · rintro (h | h) <;> simp [GroqProvider.init, h]
  · rfl

/-- Witness for the amended C2 at the empty environment. -/
theorem api_key_construction_checks_witness :
    GroqProvider.init (fun _ => none) = .error "GROQ_API_KEY environment variable is not set" ∧
    (OpenRouterProvider.init (fun _ => none)).api_key = none :=
  ⟨(api_key_construction_checks (fun _ => none)).1 (Or.inl rfl),
   (api_key_construction_checks (fun _ => none)).2⟩

/-- C7: for every provider, `get_model_config` of a model name outside the
static catalog returns the empty configuration (and, being a total function,
never raises); for a name in the catalog it returns that model's
`{max_tokens, temperature}` record from the static table. -/
theorem model_config_unknown_empty (p : Provider) (m : String) :
    (m ∉ p.catalog → p.get_model_config m = none) ∧
    (m ∈ p.catalog → ∃ c, p.get_model_config m = some c ∧ (m, c) ∈ p.configs) := by
  constructor
  · intro h
    exact (lookup_eq_none_iff p.configs m).mpr h
  · intro h
    cases hc : p.configs.lookup m with
    | none => exact absurd h ((lookup_eq_none_iff _ _).mp hc)
    | some c => exact ⟨c, hc, mem_of_lookup_eq_some hc⟩

/-- Witness for C7: an unrecognized model yields the empty config on the groq
provider, and a cataloged model yields its record on the ollama provider. -/
theorem model_config_unknown_empty_witness :
    (Provider.groq ⟨"sk", "u"⟩).get_model_config "not-a-model" = none ∧
    ∃ c, (Provider.ollama OllamaProvider.init).get_model_config
        "qwen2-1_5b-instruct-q8_0:latest" = some c ∧
      ("qwen2-1_5b-instruct-q8_0:latest", c) ∈ (Provider.ollama OllamaProvider.init).configs :=
  ⟨(model_config_unknown_empty _ _).1 (by decide),
   (model_config_unknown_empty _ _).2 (by decide)⟩

/-- C4: for every registry state and feature name `f`,
`get_dependent_features f` returns exactly the registered feature names whose
declared dependency list contains `f` — no more, no less — whether or not `f`
itself is registered. -/
theorem dependents_of_characterization (reg : Registry) (f n : String) :
    n ∈ Registry.get_dependent_features reg f ↔
      ∃ e : FeatureEntry, (n, e) ∈ reg ∧ f ∈ e.dependencies := by
  simp only [Registry.get_dependent_features, List.mem_map, List.mem_filter]
  constructor
  · rintro ⟨⟨a, e⟩, ⟨hmem, hdep⟩, rfl⟩
    exact ⟨e, hmem, by simpa [List.elem_iff] using hdep⟩
  · rintro ⟨e, hmem, hdep⟩
    exact ⟨(n, e), ⟨hmem, by simpa [List.elem_iff] using hdep⟩, rfl⟩

/-- C8: after removing a feature (with operator confirmation), it is no longer
enabled and no longer listed, every other feature's registration entry —
dependency lists included — is unchanged (no cascade), and removal of an
absent name leaves the registry state identical. -/
theorem unregister_frame (reg : Registry) (n : String) :
    Registry.is_feature_enabled (remove_feature reg n true) n = false ∧
    n ∉ Registry.get_all_features (remove_feature reg n true) ∧
    (∀ m, m ≠ n → Registry.find (remove_feature reg n true) m = Registry.find reg m) ∧
    (∀ m, m ≠ n → Registry.get_feature_dependencies (remove_feature reg n true) m =
      Registry.get_feature_dependencies reg m) ∧
    (Registry.is_feature_enabled reg n = false → remove_feature reg n true = reg) := by
  cases hen : Registry.is_feature_enabled reg n with
  | false =>
    have hr : remove_feature reg n true = reg := by simp [remove_feature, hen]
    rw [hr]
    refine ⟨hen, ?_, fun m _ => rfl, fun m _ => rfl, fun _ => rfl⟩
    intro hmem
    have htrue : Registry.is_feature_enabled reg n = true := by
      simpa [Registry.is_feature_enabled, List.elem_iff, Registry.get_all_features] using hmem
    exact Bool.noConfusion (htrue.symm.trans hen)
  | true =>
    have hr : remove_feature reg n true = Registry.pop reg n := by simp [remove_feature, hen]
    rw [hr]
    have hnot : ¬ n ∈ (Registry.pop reg n).map Prod.fst :=
      fun hmem => ((keys_pop reg n n).mp hmem).2 rfl
    refine ⟨?_, hnot, fun m hm => lookup_pop_ne reg hm, ?_, ?_⟩
    · rw [Bool.eq_false_iff]
      intro htrue
      exact hnot (by simpa [Registry.is_feature_enabled, List.elem_iff] using htrue)
    · intro m hm
      unfold Registry.get_feature_dependencies
      rw [lookup_pop_ne reg hm]
    · intro h
      exact Bool.noConfusion h

/-- Witness for C8 on a two-feature registry where `"a"` depends on `"b"`:
removing `"b"` disables it and leaves the entry of `"a"` untouched. -/
theorem unregister_frame_witness :
    Registry.is_feature_enabled
      (remove_feature [("a", ⟨"A", ["b"]⟩), ("b", ⟨"B", []⟩)] "b" true) "b" = false ∧
    Registry.find (remove_feature [("a", ⟨"A", ["b"]⟩), ("b", ⟨"B", []⟩)] "b" true) "a" =
      Registry.find [("a", ⟨"A", ["b"]⟩), ("b", ⟨"B", []⟩)] "a" :=
  ⟨(unregister_frame _ "b").1, (unregister_frame _ "b").2.2.1 "a" (by decide)⟩

/-- C9 counterexample: a feature module whose loading raises anything other
than `ImportError` (here, an exception while executing the module body) is NOT
swallowed by `add_feature` — it escapes as an unhandled error, refuting the
claim that no feature-module load failure escapes. -/
theorem feature_load_failure_escapes :
    add_feature (fun _ => .error (.otherError "boom")) "x" = .error "boom" := rfl

/-- C9 amended: `add_feature` swallows exactly the `ImportError` class of
module-load failures, degrading them to the operator warning message; any
other exception raised while loading the module escapes unhandled. -/
theorem import_error_swallowed (importModule : String → Except PyExc FeatureModule)
    (name : String) :
    (∀ msg, importModule ("features." ++ name) = .error (.importError msg) →
      add_feature importModule name = .ok ("Error: Feature \x27" ++ name ++ "\x27 not found.")) ∧
    (∀ msg, importModule ("features." ++ name) = .error (.otherError msg) →
      add_feature importModule name = .error msg) := by
  constructor <;> intro msg h <;> simp [add_feature, add_feature_body, h]

/-- Witness for the amended C9: a module-not-found import failure degrades to
the warning message. -/
theorem import_error_swallowed_witness :
    add_feature (fun _ => .error (.importError "No module named features.x")) "x" =
      .ok ("Error: Feature \x27" ++ "x" ++ "\x27 not found.") :=
  (import_error_swallowed _ "x").1 "No module named features.x" rfl

/-- C3: for every loaded dataset, integer row index and iteration count,
`analyze_row` fails with the out-of-range error and performs no generation
calls when the index is negative or at least the dataset length; otherwise it
performs exactly `k` independent generation calls (the call log is `k` copies
of the fixed analysis prompt for that row) and returns their outputs joined by
blank lines in call order. -/
theorem analyze_row_calls_and_join (gen : Nat → String → String) (dataset : List Row)
    (row : Int) (k : Nat) :
    ((row < 0 ∨ (dataset.length : Int) ≤ row) →
      analyze_row gen dataset row k =
        ([], .error ("Row index " ++ toString row ++ " is out of bounds."))) ∧
    (0 ≤ row → row < (dataset.length : Int) →
      (analyze_row gen dataset row k).1 =
        List.replicate k (analysisPrompt (dataset.getD row.toNat [])) ∧
      (analyze_row gen dataset row k).2 =
        .ok (String.intercalate "\n\n" ((List.range k).map
          (fun t => gen t (analysisPrompt (dataset.getD row.toNat [])))))) := by
  constructor
  · intro h
    rw [analyze_row, if_pos h]
  · intro h0 hlt
    have h1 : ¬ row < 0 := not_lt.mpr h0
    have h2 : ¬ row ≥ (dataset.length : Int) := not_le.mpr hlt
    rw [analyze_row, if_neg (by tauto)]
    constructor
    · simp [List.map_const']
    · rfl

/-- Witness for C3: index 5 on a 1-row dataset fails out of range; index 1
with 2 iterations on a 2-row dataset logs exactly 2 analysis-prompt calls. -/
theorem analyze_row_calls_and_join_witness :
    analyze_row (fun t _ => toString t) [[("a", "1")]] 5 3 =
      ([], .error ("Row index " ++ toString (5 : Int) ++ " is out of bounds.")) ∧
    (analyze_row (fun t _ => toString t) [[("a", "1")], [("a", "2")]] 1 2).1 =
      List.replicate 2 (analysisPrompt ([[("a", "1")], [("a", "2")]].getD (1 : Int).toNat [])) :=
  ⟨(analyze_row_calls_and_join _ _ 5 3).1 (by decide),
   ((analyze_row_calls_and_join _ _ 1 2).2 (by decide) (by decide)).1⟩

/-- C6 counterexample: a failed HTTP 500 call whose body is the JSON object
`\x7b\x7d` (no `error.message` field) produces the error message
`API request failed: Unknown error occurred`, which contains neither the raw
status nor the body — refuting the claim that the otherwise-branch carries raw
status plus body. -/
theorem upstream_error_detail_counterexample :
    generate_code_failure_message ⟨500, some (Json.obj []), "\x7b\x7d"⟩ =
      .ok "API request failed: Unknown error occurred" ∧
    ¬ ("500".toList <:+: ("API request failed: Unknown error occurred").toList) ∧
    ¬ ("\x7b\x7d".toList <:+: ("API request failed: Unknown error occurred").toList) :=
  ⟨rfl, by decide, by decide⟩

/-- C6 amended: the raised message carries the parsed `error.message` field
when the JSON body contains it; the raw status plus body only when the body is
not JSON at all; and the fixed detail `Unknown error occurred` when the body
is a JSON object lacking `error.message`. -/
theorem upstream_error_detail (r : HttpResponse) :
    (∀ fields efields m, r.jsonBody = some (.obj fields) →
      fields.lookup "error" = some (.obj efields) →
      efields.lookup "message" = some (.str m) →
      generate_code_failure_message r = .ok ("API request failed: " ++ m)) ∧
    (r.jsonBody = none →
      generate_code_failure_message r =
        .ok ("API request failed: " ++
          ("HTTP " ++ toString r.status_code ++ ": " ++ r.text))) ∧
    (∀ fields, r.jsonBody = some (.obj fields) → fields.lookup "error" = none →
      generate_code_failure_message r = .ok "API request failed: Unknown error occurred") ∧
    (∀ fields efields, r.jsonBody = some (.obj fields) →
      fields.lookup "error" = some (.obj efields) → efields.lookup "message" = none →
      generate_code_failure_message r = .ok "API request failed: Unknown error occurred") := by
  refine ⟨?_, ?_, ?_, ?_⟩
  · intro fields efields m h1 h2 h3
    simp only [generate_code_failure_message, parse_error_response, h1, h2, h3]
    rfl
  · intro h
    simp only [generate_code_failure_message, parse_error_response, h]
    rfl
  · intro fields h1 h2
    simp only [generate_code_failure_message, parse_error_response, h1, h2]
    rfl
  · intro fields efields h1 h2 h3
    simp only [generate_code_failure_message, parse_error_response, h1, h2, h3]
    rfl

/-- Witness for the amended C6: a 404 with a non-JSON body yields the raw
status-plus-body detail. -/
theorem upstream_error_detail_witness :
    generate_code_failure_message ⟨404, none, "gone"⟩ =
      .ok ("API request failed: " ++ ("HTTP " ++ toString (404 : Nat) ++ ": " ++ "gone")) :=
  (upstream_error_detail _).2.1 rfl

theorem mk_eq_empty_iff (l : List Char) : String.mk l = "" ↔ l = [] := by
  constructor
  · intro h
    have h2 := congrArg String.data h
    simpa using h2
  · rintro rfl
    rfl

theorem dirnameAux_eq_empty_iff (head : List Char) :
    dirnameAux head = "" ↔ head = [] := by
  by_cases h : head = []
  · subst h
    simp [dirnameAux]
  · rw [dirnameAux, if_neg (by simpa [List.isEmpty_iff] using h)]
    by_cases hall : head.all (fun c => (c = Char.ofNat 47 : Bool))
    · rw [if_pos hall, mk_eq_empty_iff]
    · rw [if_neg hall, mk_eq_empty_iff]
      constructor
      · intro hrev
        have hdw : head.reverse.dropWhile (fun c => (c = Char.ofNat 47 : Bool)) = [] := by
          simpa using hrev
        rw [List.dropWhile_eq_nil_iff] at hdw
        refine absurd ?_ hall
        rw [List.all_eq_true]
        intro c hc
        exact hdw c (List.mem_reverse.mpr hc)
      · intro hh
        exact absurd hh h

theorem dirname_eq_empty_iff (p : String) :
    dirname p = "" ↔ Char.ofNat 47 ∉ p.toList := by
  rw [dirname, dirnameAux_eq_empty_iff, List.reverse_eq_nil_iff, List.dropWhile_eq_nil_iff]
  constructor
  · intro h hmem
    have h2 := h (Char.ofNat 47) (List.mem_reverse.mpr hmem)
    simp at h2
  · intro h x hx
    simp only [ne_eq, decide_not, Bool.not_eq_eq_eq_not, Bool.not_false]
    refine decide_eq_false ?_
    intro hcontra
    exact h (hcontra ▸ List.mem_reverse.mp hx)

/-- C10: `write_file` on a path with a non-empty parent-directory component
creates the missing parent directories and writes the content at that exact
path, leaving every other file untouched; on a bare filename (no directory
separator, so the parent component is empty) it raises and writes nothing,
because it unconditionally runs `makedirs` on the parent. -/
theorem write_file_parent_dir (file_path content : String) (fs : FS) :
    (dirname file_path ≠ "" →
      ∃ fs2, write_file file_path content fs = .ok fs2 ∧
        fs2.files.lookup file_path = some content ∧
        dirname file_path ∈ fs2.dirs ∧
        (∀ q, q ≠ file_path → fs2.files.lookup q = fs.files.lookup q)) ∧
    (dirname file_path = "" →
      write_file file_path content fs = .error "FileNotFoundError") ∧
    (dirname file_path = "" ↔ Char.ofNat 47 ∉ file_path.toList) := by
  refine ⟨?_, ?_, dirname_eq_empty_iff file_path⟩
  · intro h
    refine ⟨{ dirs := fs.dirs ++ ancestorChain (file_path.length + 1) (dirname file_path),
              files := (file_path, content) :: fs.files }, ?_, ?_, ?_, ?_⟩
    · simp [write_file, h]
    · simp [List.lookup]
    · refine List.mem_append_right _ ?_
      rw [ancestorChain]
      exact List.mem_cons_self _ _
    · intro q hq
      simp [List.lookup, beq_false_of_ne hq]
  · intro h
    simp [write_file, h]

/-- Witness for C10 on the empty filesystem: `out/a.py` is written with its
parent created, and the bare filename `a.py` fails. -/
theorem write_file_parent_dir_witness :
    (∃ fs2, write_file "out/a.py" "content" ⟨[], []⟩ = .ok fs2 ∧
      fs2.files.lookup "out/a.py" = some "content" ∧
      dirname "out/a.py" ∈ fs2.dirs ∧
      (∀ q, q ≠ "out/a.py" → fs2.files.lookup q = (FS.mk [] []).files.lookup q)) ∧
    write_file "a.py" "content" ⟨[], []⟩ = .error "FileNotFoundError" :=
  ⟨(write_file_parent_dir "out/a.py" "content" ⟨[], []⟩).1 (by decide),
   (write_file_parent_dir "a.py" "content" ⟨[], []⟩).2.1 (by decide)⟩

/-- C5: `create_project` performs exactly one content-generation call and one
file-manager write per planned file, in plan order, writing each file at the
join of the output directory with the planned path; if any single generation
call fails, the whole run fails. -/
theorem create_project_one_call_per_file (gen : String → Except String String)
    (files : List (String × String)) (output_dir : String) :
    ((∀ e ∈ files, ∃ c, gen (filePrompt e.1 e.2) = .ok c) →
      create_project gen files output_dir =
        (files.map (fun e => filePrompt e.1 e.2),
         .ok (files.map (fun e =>
           (pathJoin output_dir e.1, okValue (gen (filePrompt e.1 e.2))))))) ∧
    ((∃ e ∈ files, ∃ msg, gen (filePrompt e.1 e.2) = .error msg) →
      ∃ msg, (create_project gen files output_dir).2 = .error msg) := by
  constructor
  · intro h
    induction files with
    | nil => rfl
    | cons hd tl ih =>
      obtain ⟨fp, desc⟩ := hd
      obtain ⟨c, hc⟩ := h (fp, desc) (List.mem_cons_self _ _)
      have ih2 := ih (fun e he => h e (List.mem_cons_of_mem _ he))
      simp only [create_project, hc, ih2, List.map_cons, Except.map, okValue]
  · intro h
    induction files with
    | nil =>
      obtain ⟨e, he, _⟩ := h
      simp at he
    | cons hd tl ih =>
      obtain ⟨fp, desc⟩ := hd
      cases hgen : gen (filePrompt fp desc) with
      | error m =>
        refine ⟨m, ?_⟩
        simp [create_project, hgen]
      | ok c =>
        obtain ⟨e, he, msg, hmsg⟩ := h
        rcases List.mem_cons.mp he with rfl | he2
        · rw [hgen] at hmsg
          cases hmsg
        · obtain ⟨m2, hm2⟩ := ih ⟨e, he2, msg, hmsg⟩
          refine ⟨m2, ?_⟩
          cases hcp : create_project gen tl output_dir with
          | mk log r =>
            rw [hcp] at hm2
            simp only at hm2
            simp [create_project, hgen, hcp, hm2, Except.map]

/-- Witness for C5: a one-file plan against an echoing provider results in
exactly one generation call and one write at `/out/a.py` carrying the
provider's generated content. -/
theorem create_project_one_call_per_file_witness :
    create_project (fun p => .ok ("GEN:" ++ p)) [("a.py", "desc")] "/out" =
      ([filePrompt "a.py" "desc"],
       .ok [("/out/a.py", "GEN:" ++ filePrompt "a.py" "desc")]) :=
  (create_project_one_call_per_file (fun p => .ok ("GEN:" ++ p)) [("a.py", "desc")] "/out").1
    (fun e _ => ⟨"GEN:" ++ filePrompt e.1 e.2, rfl⟩)

end AICS
